import Mathlib

/-!
Verification of the agfs vector-document backend (`vectorfs`) and the
LocalBackend write semantics, as a shallow embedding in Lean 4.

Conventions:
* Go byte slices are `List Nat` (each entry a byte value).
* Go `(T, error)` results are `Except String T`; `error` messages are kept
  close to the source strings.
* Machine integers are `Nat`/`Int`; 32-bit overflow in SHA-256 is explicit
  via reduction modulo 2 ^ 32.
* External capabilities (object store, database, embedding service) are
  modelled from the spec as explicit state / oracle functions, since their
  client code is not part of the core sources.
-/

/-- Bytes of an ASCII string, as Go's `[]byte(s)` conversion for ASCII content. -/
def asciiBytes (s : String) : List Nat :=
  s.toList.map (fun c => c.toNat)

/-- Split a character list at every `'/'`, mirroring `strings.Split(s, "/")`. -/
def splitSlashChars : List Char → List (List Char)
  | [] => [[]]
  | c :: rest =>
    let r := splitSlashChars rest
    if c = '/' then [] :: r
    else
      match r with
      | [] => [[c]]
      | g :: gs => (c :: g) :: gs

/-- Join strings with `'/'` separators (inverse of splitting on `'/'`). -/
def joinSlash : List String → String
  | [] => ""
  | [s] => s
  | s :: rest => s ++ "/" ++ joinSlash rest

/-- `strings.HasPrefix s pre`. -/
def strHasPrefix (s pre : String) : Bool :=
  pre.toList.isPrefixOf s.toList

/-- `strings.TrimPrefix s pre`: drop `pre` from the front of `s` when present. -/
def strTrimPrefix (s pre : String) : String :=
  if strHasPrefix s pre then String.mk (s.toList.drop pre.toList.length) else s

/-! ## SHA-256 (`crypto/sha256`), over byte lists -/

/-- Reduce to a 32-bit word. -/
def w32 (n : Nat) : Nat := n % 4294967296

/-- Right-rotation of a 32-bit word by `n` bits. -/
def rotr32 (n x : Nat) : Nat := x / 2 ^ n + x % 2 ^ n * 2 ^ (32 - n)

/-- Logical right shift of a 32-bit word by `n` bits. -/
def shr32 (n x : Nat) : Nat := x / 2 ^ n

/-- Three-way xor. -/
def xor3 (a b c : Nat) : Nat := Nat.xor (Nat.xor a b) c

def sha256ssig0 (x : Nat) : Nat := xor3 (rotr32 7 x) (rotr32 18 x) (shr32 3 x)

def sha256ssig1 (x : Nat) : Nat := xor3 (rotr32 17 x) (rotr32 19 x) (shr32 10 x)

def sha256bsig0 (x : Nat) : Nat := xor3 (rotr32 2 x) (rotr32 13 x) (rotr32 22 x)

def sha256bsig1 (x : Nat) : Nat := xor3 (rotr32 6 x) (rotr32 11 x) (rotr32 25 x)

def sha256ch (x y z : Nat) : Nat :=
  Nat.xor (Nat.land x y) (Nat.land (Nat.xor x 4294967295) z)

def sha256maj (x y z : Nat) : Nat :=
  Nat.xor (Nat.xor (Nat.land x y) (Nat.land x z)) (Nat.land y z)

/-- The 64 SHA-256 round constants. -/
def sha256K : List Nat :=
  [1116352408, 1899447441, 3049323471, 3921009573, 961987163,
   1508970993, 2453635748, 2870763221, 3624381080, 310598401,
   607225278, 1426881987, 1925078388, 2162078206, 2614888103,
   3248222580, 3835390401, 4022224774, 264347078, 604807628,
   770255983, 1249150122, 1555081692, 1996064986, 2554220882,
   2821834349, 2952996808, 3210313671, 3336571891, 3584528711,
   113926993, 338241895, 666307205, 773529912, 1294757372,
   1396182291, 1695183700, 1986661051, 2177026350, 2456956037,
   2730485921, 2820302411, 3259730800, 3345764771, 3516065817,
   3600352804, 4094571909, 275423344, 430227734, 506948616,
   659060556, 883997877, 958139571, 1322822218, 1537002063,
   1747873779, 1955562222, 2024104815, 2227730452, 2361852424,
   2428436474, 2756734187, 3204031479, 3329325298]

/-- Big-endian byte expansion: `k` bytes of `n`. -/
def bytesBE (k n : Nat) : List Nat :=
  (List.range k).map (fun i => n / 2 ^ (8 * (k - 1 - i)) % 256)

/-- SHA-256 padding: append `0x80`, zeros, and the 64-bit big-endian bit length. -/
def sha256Pad (msg : List Nat) : List Nat :=
  let padZeros := (64 - (msg.length + 9) % 64) % 64
  msg ++ [128] ++ List.replicate padZeros 0 ++ bytesBE 8 (msg.length * 8)

/-- Combine bytes into big-endian 32-bit words. -/
def wordsOfBytes : List Nat → List Nat
  | b0 :: b1 :: b2 :: b3 :: rest =>
    (((b0 * 256 + b1) * 256 + b2) * 256 + b3) :: wordsOfBytes rest
  | _ => []

/-- Split a word list into chunks of 16 (fuel-driven, structurally recursive). -/
def chunk16Fuel : Nat → List Nat → List (List Nat)
  | 0, _ => []
  | _, [] => []
  | fuel + 1, w :: ws => ((w :: ws).take 16) :: chunk16Fuel fuel ((w :: ws).drop 16)

def chunk16 (l : List Nat) : List (List Nat) := chunk16Fuel l.length l

/-- Next message-schedule word from the current partial schedule. -/
def sha256NextW (w : List Nat) : Nat :=
  let n := w.length
  w32 (sha256ssig1 (w.getD (n - 2) 0) + w.getD (n - 7) 0 +
       sha256ssig0 (w.getD (n - 15) 0) + w.getD (n - 16) 0)

/-- Extend a 16-word block to the full 64-word message schedule. -/
def sha256Schedule (block : List Nat) : List Nat :=
  (List.range 48).foldl (fun w _ => w ++ [sha256NextW w]) block

/-- The eight 32-bit working variables of SHA-256. -/
structure Sha256State where
  a : Nat
  b : Nat
  c : Nat
  d : Nat
  e : Nat
  f : Nat
  g : Nat
  h : Nat
deriving DecidableEq, Repr

/-- Initial SHA-256 hash state. -/
def sha256H0 : Sha256State :=
  ⟨1779033703, 3144134277, 1013904242, 2773480762,
   1359893119, 2600822924, 528734635, 1541459225⟩

/-- One SHA-256 compression round. -/
def sha256Round (s : Sha256State) (kw : Nat × Nat) : Sha256State :=
  let t1 := w32 (s.h + sha256bsig1 s.e + sha256ch s.e s.f s.g + kw.1 + kw.2)
  let t2 := w32 (sha256bsig0 s.a + sha256maj s.a s.b s.c)
  ⟨w32 (t1 + t2), s.a, s.b, s.c, w32 (s.d + t1), s.e, s.f, s.g⟩

/-- Compress one 16-word block into the running hash state. -/
def sha256Compress (h0 : Sha256State) (block : List Nat) : Sha256State :=
  let w := sha256Schedule block
  let s := (sha256K.zip w).foldl sha256Round h0
  ⟨w32 (h0.a + s.a), w32 (h0.b + s.b), w32 (h0.c + s.c), w32 (h0.d + s.d),
   w32 (h0.e + s.e), w32 (h0.f + s.f), w32 (h0.g + s.g), w32 (h0.h + s.h)⟩

/-- SHA-256 digest (32 bytes) of a byte list, as `sha256.Sum256`. -/
def sha256 (msg : List Nat) : List Nat :=
  let blocks := chunk16 (wordsOfBytes (sha256Pad msg))
  let h := blocks.foldl sha256Compress sha256H0
  List.flatten ([h.a, h.b, h.c, h.d, h.e, h.f, h.g, h.h].map (bytesBE 4))

/-- Lowercase hex digit for a value below 16. -/
def hexDigit (n : Nat) : Char :=
  if n < 10 then Char.ofNat (48 + n) else Char.ofNat (87 + n)

/-- `hex.EncodeToString`: lowercase hex of a byte list. -/
def hexEncodeToString (bs : List Nat) : String :=
  String.mk (List.flatten (bs.map (fun b => [hexDigit (b / 16), hexDigit (b % 16)])))

set_option maxRecDepth 100000 in
/-- FIPS 180-2 test vector: SHA-256 of `"abc"`. The model of `crypto/sha256`
matches the standard on this input. -/
theorem sha256_abc_vector :
    hexEncodeToString (sha256 (asciiBytes "abc")) =
      "ba7816bf8f01cfea414140de5dae2223b00361a396177a9cb410ff61f20015ad" := by
  decide

set_option maxRecDepth 100000 in
/-- SHA-256 of the empty byte string matches the standard value. -/
theorem sha256_empty_vector :
    hexEncodeToString (sha256 []) =
      "e3b0c44298fc1c149afbf4c8996fb92427ae41e4649b934ca495991b7852b855" := by
  decide

/-! ## Path handling (`path/filepath.Clean` and `vectorfs.parsePath`) -/

/-- `filepath.Clean` for slash-separated paths: collapse multiple slashes,
resolve `.` and `..`, no trailing slash except for the root. -/
def filepathClean (p : String) : String :=
  if p = "" then "."
  else
    let rooted : Bool :=
      match p.toList with
      | [] => false
      | c :: _ => c = '/'
    let comps := (splitSlashChars p.toList).map (fun l => String.mk l)
    let comps := comps.filter (fun c => !(c = "" ∨ c = "." : Bool))
    let stack := comps.foldl (fun st c =>
      if c = ".." then
        match st with
        | [] => if rooted then [] else [".."]
        | top :: rest => if top = ".." then c :: top :: rest else rest
      else c :: st) []
    let out := stack.reverse
    if out = [] then (if rooted then "/" else ".")
    else (if rooted then "/" else "") ++ joinSlash out

/-- `vectorfs.parsePath`: clean the path, strip the leading slash, and split
into `(namespace, relativePath)` at the first remaining slash. -/
def parsePath (path : String) : Except String (String × String) :=
  let p := strTrimPrefix (filepathClean path) "/"
  if p = "" ∨ p = "." then .ok ("", "")
  else
    match (splitSlashChars p.toList).map (fun l => String.mk l) with
    | [] => .error "invalid path"
    | ns :: rest => .ok (ns, if rest = [] then "" else joinSlash rest)

/-! ## Data model of the vector backend -/

/-- `vectorfs.indexTask`: one asynchronous indexing job. The Go struct keeps
the payload as a string of the written bytes; we keep the byte list. -/
structure IndexTask where
  ns : String
  digest : String
  fileName : String
  data : List Nat
deriving DecidableEq, Repr

/-- `vectorfs.FileMetadata`: one row of the per-namespace files table. -/
structure FileMetadata where
  fileDigest : String
  fileName : String
  s3Key : String
  fileSize : Int
  createdAt : Nat
  updatedAt : Nat
deriving DecidableEq, Repr

/-- One row returned by the database vector search
(`TiDBClient.VectorSearch` result). Distances are modelled as rationals. -/
structure SearchResult where
  fileName : String
  chunkIndex : Int
  chunkText : String
  distance : Rat
deriving DecidableEq

/-- `mountablefs.CustomGrepResult`. The Go metadata map carries exactly the
keys `distance` and `score`; they are modelled as the two metadata fields. -/
structure CustomGrepResult where
  file : String
  line : Int
  content : String
  mdDistance : Rat
  mdScore : Rat
deriving DecidableEq

/-- `filesystem.FileInfo` (meta map modelled as its two fixed keys). -/
structure FileInfo where
  name : String
  size : Int
  mode : Nat
  modTime : Nat
  isDir : Bool
  metaName : String
  metaType : String
deriving DecidableEq

/-- `filesystem.WriteFlag` bitset, lowered to a record of booleans. -/
structure WriteFlag where
  create : Bool
  exclusive : Bool
  truncate : Bool
  append : Bool
deriving DecidableEq, Repr

def WriteFlagNone : WriteFlag := ⟨false, false, false, false⟩

def WriteFlagCreate : WriteFlag := ⟨true, false, false, false⟩

def WriteFlagExclusive : WriteFlag := ⟨false, true, false, false⟩

def WriteFlagTruncate : WriteFlag := ⟨false, false, true, false⟩

def WriteFlagAppend : WriteFlag := ⟨false, false, false, true⟩

/-- Bitwise-or of two write flag sets. -/
def WriteFlag.union (f g : WriteFlag) : WriteFlag :=
  ⟨f.create || g.create, f.exclusive || g.exclusive,
   f.truncate || g.truncate, f.append || g.append⟩

/-- State of the external stores the vector backend drives: the per-namespace
files table, the object store contents, the created namespaces, and the two
queues of the worker pool (buffered channel plus detached blocked helpers). -/
structure VfsState where
  files : List (String × FileMetadata)
  objects : List (String × List Nat)
  namespaces : List String
  indexQueue : List IndexTask
  overflowQueue : List IndexTask
deriving DecidableEq

/-- External capabilities the backend is configured with. `generateEmbedding`
and `vectorSearchDB` model the opaque embedding service and the database
nearest-neighbor search; `now` models the wall clock. -/
structure Env where
  keyPrefix : String
  now : Nat
  generateEmbedding : String → Except String (List Rat)
  vectorSearchDB : String → List Rat → Nat → Except String (List SearchResult)

/-- Modelled from the spec: object-store file keys are
`<prefix>/<namespace>/<digest>` (`S3Client.buildKey`). -/
def buildKey (env : Env) (ns digest : String) : String :=
  env.keyPrefix ++ "/" ++ ns ++ "/" ++ digest

/-- Modelled from the spec: the files table has unique key
`(namespace, file-digest)` (`TiDBClient.FileExists`). -/
def fileExists (st : VfsState) (ns digest : String) : Bool :=
  st.files.any (fun r => decide (r.1 = ns) && decide (r.2.fileDigest = digest))

/-- Modelled from the spec: an object-store put is an atomic whole-object
replace under its key. -/
def putObject : List (String × List Nat) → String → List Nat → List (String × List Nat)
  | [], k, d => [(k, d)]
  | (k0, d0) :: rest, k, d =>
    if k0 = k then (k, d) :: rest else (k0, d0) :: putObject rest k d

/-- Modelled from the spec: `S3Client.UploadDocument` stores the payload under
the namespace/digest key. -/
def uploadDocument (env : Env) (st : VfsState) (ns digest : String) (data : List Nat) : VfsState :=
  { st with objects := putObject st.objects (buildKey env ns digest) data }

/-- Modelled from the spec: `TiDBClient.InsertFileMetadata` inserts a document
record (called only for a digest not yet present). -/
def insertFileMetadata (st : VfsState) (ns : String) (meta : FileMetadata) : VfsState :=
  { st with files := st.files ++ [(ns, meta)] }

/-- Modelled from the spec: look a document up by `(namespace, filename)`
(`TiDBClient.GetFileMetadataByName`). -/
def getFileMetadataByName (st : VfsState) (ns fileName : String) : Except String FileMetadata :=
  match st.files.find? (fun r => decide (r.1 = ns) && decide (r.2.fileName = fileName)) with
  | some r => .ok r.2
  | none => .error "file not found"

/-- Document record under `(namespace, digest)`, if any. -/
def getFileMetadataByDigest (st : VfsState) (ns digest : String) : Option FileMetadata :=
  (st.files.find? (fun r => decide (r.1 = ns) && decide (r.2.fileDigest = digest))).map (fun r => r.2)

/-- Modelled from the spec: `S3Client.DownloadDocument` fetches the object
stored under the namespace/digest key. -/
def downloadDocument (env : Env) (st : VfsState) (ns digest : String) : Except String (List Nat) :=
  match st.objects.find? (fun o => decide (o.1 = buildKey env ns digest)) with
  | some o => .ok o.2
  | none => .error "object not found"

/-- Modelled from the spec: `TiDBClient.NamespaceExists`. -/
def namespaceExists (st : VfsState) (ns : String) : Bool :=
  st.namespaces.contains ns

/-- Modelled from the spec: `TiDBClient.DeleteNamespace` drops the namespace
tables and deletes the namespace objects (keys under
`<prefix>/<namespace>/`) from the object store. -/
def deleteNamespace (env : Env) (st : VfsState) (ns : String) : VfsState :=
  { st with
    files := st.files.filter (fun r => !(decide (r.1 = ns))),
    objects := st.objects.filter (fun o => !(strHasPrefix o.1 (env.keyPrefix ++ "/" ++ ns ++ "/"))),
    namespaces := st.namespaces.filter (fun x => !(decide (x = ns))) }

/-- Modelled from the spec: `plugin.ApplyRangeRead` clamps the offset into
`[0, length]`; size `-1` means to-end, otherwise at most `length - offset`
bytes are returned. -/
def applyRangeRead (data : List Nat) (offset size : Int) : List Nat :=
  let len : Int := data.length
  let off := if offset < 0 then 0 else if offset > len then len else offset
  let sz := if size < 0 then len - off else min size (len - off)
  (data.drop off.toNat).take sz.toNat

/-! ## The vectorfs filesystem operations -/

/-- `VectorFSPlugin.GetReadme`: the fixed README document. -/
def VectorFSPluginReadme : String :=
  "VectorFS Plugin - Document Vector Search\n\nThis plugin provides semantic search capabilities for documents using:\n- S3 for document storage\n- TiDB Cloud vector index for fast similarity search\n- OpenAI embeddings (default)\n\nSTRUCTURE:\n  /vectorfs/\n    README              - This documentation\n    <namespace>/        - Project/namespace directory\n      docs/             - Document directory (auto-indexed on write)\n      .indexing         - Indexing status (virtual file)\n\nWORKFLOW:\n  1. Create a namespace (project):\n     mkdir /vectorfs/my_project\n\n  2. Write documents (will be auto-indexed):\n     echo \"content\" > /vectorfs/my_project/docs/document.txt\n\n  3. Search documents using grep:\n     grep 'how to deploy' /vectorfs/my_project/docs\n\n     This will perform vector similarity search and return relevant chunks.\n\n  4. Read indexed documents:\n     cat /vectorfs/my_project/docs/document.txt\n\nCONFIGURATION:\n  [plugins.vectorfs]\n  enabled = true\n  path = \"/vectorfs\"\n\n    [plugins.vectorfs.config]\n    # S3 Storage\n    s3_bucket = \"my-docs\"\n    s3_key_prefix = \"vectorfs\"\n    s3_region = \"us-east-1\"\n    s3_access_key = \"...\"\n    s3_secret_key = \"...\"\n\n    # TiDB Cloud Vector Database\n    tidb_dsn = \"user:pass@tcp(host:4000)/dbname?tls=true\"\n\n    # Embeddings\n    embedding_provider = \"openai\"\n    openai_api_key = \"sk-...\"\n    embedding_model = \"text-embedding-3-small\"\n    embedding_dim = 1536\n\n    # Chunking (optional)\n    chunk_size = 512\n    chunk_overlap = 50\n\nFEATURES:\n  - Automatic indexing on file write\n  - Deduplication using file digest (SHA256)\n  - Semantic search via grep command\n  - S3 storage for scalability\n  - TiDB Cloud vector index for fast search\n\nNOTES:\n  - Files are automatically indexed when written to docs/ directory\n  - Same content (same digest) won't be indexed twice\n  - grep command performs vector similarity search\n  - Results include file path, chunk text, and relevance score\n"

/-- `vectorFS.Create`: always succeeds and does nothing; files are created on
write. -/
def vectorFS.Create (st : VfsState) (_path : String) : Except String Unit × VfsState :=
  (.ok (), st)

/-- Modelled from the spec: `TiDBClient.CreateNamespace` creates the
per-namespace tables, registering the namespace. -/
def createNamespace (st : VfsState) (ns : String) : VfsState :=
  { st with namespaces := if namespaceExists st ns then st.namespaces else st.namespaces ++ [ns] }

/-- `vectorFS.Mkdir`: namespace roots create tables; `docs/` subdirectories
are virtual no-ops; anything else is refused. -/
def vectorFS.Mkdir (st : VfsState) (path : String) (_perm : Nat) : Except String Unit × VfsState :=
  match parsePath path with
  | .error e => (.error e, st)
  | .ok (ns, rel) =>
    if rel ≠ "" then
      if strHasPrefix rel "docs/" then (.ok (), st)
      else (.error "can only create namespace directories or docs/ subdirectories", st)
    else if ns = "" then (.error "invalid namespace name", st)
    else (.ok (), createNamespace st ns)

/-- `vectorFS.Remove`: single-entry removal is always refused. -/
def vectorFS.Remove (st : VfsState) (_path : String) : Except String Unit × VfsState :=
  (.error "remove not supported in vectorfs (use rm -r to delete entire namespace)", st)

/-- `vectorFS.RemoveAll`: allowed only on a namespace root; deletes the
namespace. -/
def vectorFS.RemoveAll (env : Env) (st : VfsState) (path : String) : Except String Unit × VfsState :=
  match parsePath path with
  | .error e => (.error e, st)
  | .ok (ns, rel) =>
    if rel ≠ "" then
      (.error ("can only remove entire namespace, not subdirectories (path: " ++ path ++ ")"), st)
    else if ns = "" then (.error "cannot remove root directory", st)
    else (.ok (), deleteNamespace env st ns)

/-- `vectorFS.Read`: README at root, the virtual `.indexing` status file, and
range reads of documents under `docs/`. -/
def vectorFS.Read (env : Env) (st : VfsState) (path : String) (offset size : Int) :
    Except String (List Nat) :=
  if path = "/README" then .ok (applyRangeRead (asciiBytes VectorFSPluginReadme) offset size)
  else
    match parsePath path with
    | .error e => .error e
    | .ok (ns, rel) =>
      if rel = ".indexing" then .ok (asciiBytes "idle")
      else if !(strHasPrefix rel "docs/") then .error "can only read files from docs/ directory"
      else
        let fileName := strTrimPrefix rel "docs/"
        if fileName = "" ∨ fileName = "/" then .error "cannot read directory, specify a file"
        else
          match getFileMetadataByName st ns fileName with
          | .error e => .error ("failed to get file metadata: " ++ e)
          | .ok meta =>
            match downloadDocument env st ns meta.fileDigest with
            | .error e => .error ("failed to download document from S3: " ++ e)
            | .ok data => .ok (applyRangeRead data offset size)

/-- Capacity of the buffered index channel (`make(chan indexTask, 100)`). -/
def indexQueueCapacity : Nat := 100

/-- `vectorFS.Write`: parse the path, require `docs/`, hash the payload,
build the index task and enqueue it without blocking: a non-full queue takes
the task directly, a full queue hands it to a detached helper (the
`overflowQueue`). The call acknowledges `len(data)` immediately. -/
def vectorFS.Write (st : VfsState) (path : String) (data : List Nat) (_offset : Int)
    (_flags : WriteFlag) : Except String Int × VfsState :=
  match parsePath path with
  | .error e => (.error e, st)
  | .ok (ns, rel) =>
    if !(strHasPrefix rel "docs/") then (.error "can only write files to docs/ directory", st)
    else
      let digest := hexEncodeToString (sha256 data)
      let fileName := strTrimPrefix rel "docs/"
      let task : IndexTask := ⟨ns, digest, fileName, data⟩
      if st.indexQueue.length < indexQueueCapacity then
        (.ok (data.length : Int), { st with indexQueue := st.indexQueue ++ [task] })
      else
        (.ok (data.length : Int), { st with overflowQueue := st.overflowQueue ++ [task] })

/-- `vectorFS.Stat`: root, README, namespace roots, `docs` and `.indexing`. -/
def vectorFS.Stat (env : Env) (st : VfsState) (path : String) : Except String FileInfo :=
  if path = "/" then .ok ⟨"/", 0, 0o755, env.now, true, "vectorfs", "root"⟩
  else if path = "/README" then
    .ok ⟨"README", ((asciiBytes VectorFSPluginReadme).length : Int), 0o444, env.now, false,
         "vectorfs", "doc"⟩
  else
    match parsePath path with
    | .error e => .error e
    | .ok (ns, rel) =>
      if rel = "" then
        if namespaceExists st ns then .ok ⟨ns, 0, 0o755, env.now, true, "vectorfs", "namespace"⟩
        else .error "file not found"
      else if rel = "docs" then .ok ⟨"docs", 0, 0o755, env.now, true, "vectorfs", "docs"⟩
      else if rel = ".indexing" then
        .ok ⟨".indexing", 4, 0o444, env.now, false, "vectorfs", "status"⟩
      else .error "file not found"

/-- `vectorFS.VectorSearch`: one query embedding, one top-10 database search,
and the translation of each row into a grep hit. -/
def vectorFS.VectorSearch (env : Env) (ns query : String) : Except String (List CustomGrepResult) :=
  match env.generateEmbedding query with
  | .error e => .error ("failed to generate query embedding: " ++ e)
  | .ok queryEmbedding =>
    match env.vectorSearchDB ns queryEmbedding 10 with
    | .error e => .error ("failed to perform vector search: " ++ e)
    | .ok results =>
      .ok (results.map (fun r =>
        ⟨ns ++ "/docs/" ++ r.fileName, r.chunkIndex + 1, r.chunkText, r.distance, 1 - r.distance⟩))

/-- `vectorFS.CustomGrep`: guard on the relative path, then delegate to the
vector search. The source guard tests `strings.HasPrefix(relativePath, "docs")`
without a trailing slash. -/
def vectorFS.CustomGrep (env : Env) (path query : String) : Except String (List CustomGrepResult) :=
  match parsePath path with
  | .error e => .error e
  | .ok (ns, rel) =>
    if !(strHasPrefix rel "docs") && !(decide (rel = "docs")) then
      .error "vector search only supported in docs/ directory"
    else vectorFS.VectorSearch env ns query

/-- `Indexer.PrepareDocument`: skip everything when the digest is already
present; otherwise upload the payload and insert the document record.
Returns whether the document already existed. -/
def Indexer.PrepareDocument (env : Env) (st : VfsState) (ns digest fileName : String)
    (content : List Nat) : Except String Bool × VfsState :=
  if fileExists st ns digest then (.ok true, st)
  else
    let s3Key := buildKey env ns digest
    let st1 := uploadDocument env st ns digest content
    let meta : FileMetadata :=
      { fileDigest := digest, fileName := fileName, s3Key := s3Key,
        fileSize := (content.length : Int), createdAt := env.now, updatedAt := env.now }
    (.ok false, insertFileMetadata st1 ns meta)

/-! ## The index worker pool as a transition system

`VectorFSPlugin.indexWorker` runs a `select` over the shutdown channel and
the buffered index queue; `VectorFSPlugin.Shutdown` closes the shutdown
channel, then the queue, then joins the workers. Once both channels are
ready, Go's `select` chooses either case, so each step below is enabled
exactly when its channel operation could be chosen. -/

/-- The zero value of `indexTask`, received from a closed empty channel. -/
def zeroIndexTask : IndexTask := ⟨"", "", "", []⟩

/-- A snapshot of the worker pool: buffered queue contents, whether the two
channels are closed, live workers, and the tasks executed so far. -/
structure PoolState where
  queue : List IndexTask
  shutdownClosed : Bool
  queueClosed : Bool
  activeWorkers : Nat
  executed : List IndexTask
deriving DecidableEq

/-- One step of the pool: a worker receives a buffered task, a worker receives
the zero value from the closed drained queue, a worker returns through the
closed shutdown channel, or `Shutdown` closes a channel (shutdown signal
strictly before the queue). -/
inductive PoolStep : PoolState → PoolState → Prop where
  | recvTask (s : PoolState) (t : IndexTask) (rest : List IndexTask) :
      s.queue = t :: rest → 0 < s.activeWorkers →
      PoolStep s { s with queue := rest, executed := s.executed ++ [t] }
  | recvClosed (s : PoolState) :
      s.queueClosed = true → s.queue = [] → 0 < s.activeWorkers →
      PoolStep s { s with executed := s.executed ++ [zeroIndexTask] }
  | exitOnShutdown (s : PoolState) :
      s.shutdownClosed = true → 0 < s.activeWorkers →
      PoolStep s { s with activeWorkers := s.activeWorkers - 1 }
  | closeShutdown (s : PoolState) :
      s.shutdownClosed = false →
      PoolStep s { s with shutdownClosed := true }
  | closeQueue (s : PoolState) :
      s.shutdownClosed = true → s.queueClosed = false →
      PoolStep s { s with queueClosed := true }

/-! ## LocalBackend write semantics

The LocalBackend implementation itself is not among the provided sources
(only its test file is), so its write path is modelled from the spec and
checked against the behaviors the tests pin down. -/

/-- State of the LocalBackend: a map from path to file contents. Directories,
modes and timestamps are outside the modelled claims. -/
structure LocalState where
  files : List (String × List Nat)
deriving DecidableEq

/-- Association-list lookup by path. -/
def lookupFile : List (String × List Nat) → String → Option (List Nat)
  | [], _ => none
  | (p, c) :: rest, q => if p = q then some c else lookupFile rest q

/-- Association-list update (replace or append) by path. -/
def setFile : List (String × List Nat) → String → List Nat → List (String × List Nat)
  | [], p, c => [(p, c)]
  | (p0, c0) :: rest, p, c =>
    if p0 = p then (p, c) :: rest else (p0, c0) :: setFile rest p c

/-- Overwrite `base` at byte offset `off` with `data`, zero-filling the gap
when `off` lies past the end of `base`. -/
def writeAt (base : List Nat) (off : Nat) (data : List Nat) : List Nat :=
  base.take off ++ List.replicate (off - base.length) 0 ++ data ++ base.drop (off + data.length)

/-- Modelled from the spec: the LocalBackend write semantics (spec 4.2).
`Create` creates an absent file, `Exclusive` additionally fails on an
existing one, `Truncate` clears it first, `Append` writes at the current
end ignoring the offset; without any creating flag a missing file is an
error except for the compatibility clause (flags `None` and offset `-1`
auto-create); an offset past the end zero-fills; on success the call
returns `len(data)`. -/
def LocalFS.Write (st : LocalState) (path : String) (data : List Nat) (offset : Int)
    (flags : WriteFlag) : Except String Int × LocalState :=
  match lookupFile st.files path with
  | none =>
    if flags.create then
      let off : Nat := if flags.append then 0 else if offset < 0 then 0 else offset.toNat
      (.ok (data.length : Int), ⟨setFile st.files path (writeAt [] off data)⟩)
    else if flags = WriteFlagNone ∧ offset = -1 then
      (.ok (data.length : Int), ⟨setFile st.files path data⟩)
    else
      (.error "file does not exist and no flag requests creation", st)
  | some old =>
    if flags.create ∧ flags.exclusive then (.error "file already exists", st)
    else
      let base := if flags.truncate then [] else old
      let off : Nat :=
        if flags.append then base.length
        else if offset < 0 then (if flags.create ∨ flags.truncate then 0 else base.length)
        else offset.toNat
      (.ok (data.length : Int), ⟨setFile st.files path (writeAt base off data)⟩)

/-! ## Concrete fixtures shared by the witnesses -/

/-- A trivial environment: default key prefix, zero clock, oracles that
return empty results. -/
def env0 : Env := ⟨"vectorfs", 0, fun _ => .ok [], fun _ _ _ => .ok []⟩

/-- The empty vector-backend state. -/
def stEmpty : VfsState := ⟨[], [], [], [], []⟩

/-- A vector-backend state in which namespace `n` exists. -/
def stNs : VfsState := ⟨[], [], ["n"], [], []⟩

/-- The empty LocalBackend state. -/
def localEmpty : LocalState := ⟨[]⟩

/-- LocalBackend state after writing `"Hello"` to `/a` with `Create`
(scenario S1 of the spec). -/
def stHello : LocalState :=
  (LocalFS.Write localEmpty "/a" (asciiBytes "Hello") (-1) WriteFlagCreate).2

/-! ## Helper lemmas -/

/-- `find?` skips a scanned-through list in which nothing matches. -/
theorem find?_append_of_none {α : Type} {p : α → Bool} {l1 l2 : List α}
    (h : l1.find? p = none) : (l1 ++ l2).find? p = l2.find? p := by
  simp [List.find?_append, h]

/-! ## Claim theorems -/

/-- C10: in the VectorBackend, `create(path)` returns success for every path
and every state, performs no action (the state, and hence the set of visible
files, is unchanged) and no validation; files come into existence only
through the write path. -/
theorem vectorfs_create_always_ok (st : VfsState) (path : String) :
    vectorFS.Create st path = (.ok (), st) := rfl

/-- Concrete pool fixtures for the shutdown claim: one enqueued task and one
live worker. -/
def poolTask : IndexTask := ⟨"n", "d", "a.txt", [104]⟩

def poolInit : PoolState := ⟨[poolTask], false, false, 1, []⟩

def poolFinal : PoolState := ⟨[poolTask], true, true, 0, []⟩

/-- C3: the code does not guarantee the drain. There is a complete execution
of the worker pool in which `Shutdown` closes the shutdown signal, then the
queue, and then the sole worker's `select` picks the closed shutdown channel
and returns: all workers are joined, yet the task that was successfully
enqueued before `Shutdown` is never executed. -/
theorem vectorfs_shutdown_can_abandon_enqueued_task :
    Relation.ReflTransGen PoolStep poolInit poolFinal ∧
    poolTask ∈ poolInit.queue ∧
    poolFinal.shutdownClosed = true ∧
    poolFinal.queueClosed = true ∧
    poolFinal.activeWorkers = 0 ∧
    poolTask ∉ poolFinal.executed := by
  refine ⟨?_, ?_, rfl, rfl, rfl, ?_⟩
  · have h1 : PoolStep poolInit ⟨[poolTask], true, false, 1, []⟩ :=
      PoolStep.closeShutdown poolInit rfl
    have h2 : PoolStep ⟨[poolTask], true, false, 1, []⟩ ⟨[poolTask], true, true, 1, []⟩ :=
      PoolStep.closeQueue _ rfl rfl
    have h3 : PoolStep ⟨[poolTask], true, true, 1, []⟩ poolFinal :=
      PoolStep.exitOnShutdown _ rfl (by decide)
    exact Relation.ReflTransGen.head h1
      (Relation.ReflTransGen.head h2 (Relation.ReflTransGen.single h3))
  · simp [poolInit]
  · simp [poolFinal]

/-- C4: single-entry `remove` is refused for every path; `remove-all`
succeeds exactly on a namespace root (non-empty namespace, empty relative
path), where it deletes the namespace (tables and objects); any deeper path
and the root itself are errors. -/
theorem vectorfs_remove_policy (env : Env) (st : VfsState) (path : String) :
    (∃ e, vectorFS.Remove st path = (.error e, st)) ∧
    (∀ ns rel, parsePath path = .ok (ns, rel) →
      (rel ≠ "" → ∃ e, vectorFS.RemoveAll env st path = (.error e, st)) ∧
      (rel = "" → ns = "" → ∃ e, vectorFS.RemoveAll env st path = (.error e, st)) ∧
      (rel = "" → ns ≠ "" →
        vectorFS.RemoveAll env st path = (.ok (), deleteNamespace env st ns))) := by
  refine ⟨⟨_, rfl⟩, ?_⟩
  intro ns rel hparse
  refine ⟨?_, ?_, ?_⟩
  · intro hrel
    have heq : vectorFS.RemoveAll env st path =
        (.error ("can only remove entire namespace, not subdirectories (path: " ++ path ++ ")"),
         st) := by
      unfold vectorFS.RemoveAll
      rw [hparse]
      simp [hrel]
    exact ⟨_, heq⟩
  · intro hrel hns
    subst hrel; subst hns
    have heq : vectorFS.RemoveAll env st path = (.error "cannot remove root directory", st) := by
      unfold vectorFS.RemoveAll
      rw [hparse]
      simp
    exact ⟨_, heq⟩
  · intro hrel hns
    subst hrel
    unfold vectorFS.RemoveAll
    rw [hparse]
    simp [hns]

/-- Witness for C4 at concrete inputs: removing all of `/n` succeeds and
deletes namespace `n`. -/
theorem vectorfs_remove_policy_witness :
    vectorFS.RemoveAll env0 stEmpty "/n" = (.ok (), deleteNamespace env0 stEmpty "n") :=
  ((vectorfs_remove_policy env0 stEmpty "/n").2 "n" "" rfl).2.2 rfl (by decide)

/-- C2: for every write whose path parses to a namespace and a `docs/`
relative path, `Write` returns `len(data)` with no error, after enqueuing
the task `{namespace, lowercase-hex SHA-256 digest, relative filename,
data}`: directly on the bounded index queue (capacity 100) when it has
room, otherwise on the detached-helper overflow queue. The call is a total
function of the state — it returns in both cases and never blocks on the
queue. -/
theorem vectorfs_write_acks_and_enqueues
    (st : VfsState) (path : String) (data : List Nat) (offset : Int) (flags : WriteFlag)
    (ns rel : String)
    (hparse : parsePath path = .ok (ns, rel))
    (hdocs : strHasPrefix rel "docs/" = true) :
    indexQueueCapacity = 100 ∧
    vectorFS.Write st path data offset flags =
      (.ok (data.length : Int),
        if st.indexQueue.length < indexQueueCapacity then
          { st with indexQueue :=
              st.indexQueue ++
                [⟨ns, hexEncodeToString (sha256 data), strTrimPrefix rel "docs/", data⟩] }
        else
          { st with overflowQueue :=
              st.overflowQueue ++
                [⟨ns, hexEncodeToString (sha256 data), strTrimPrefix rel "docs/", data⟩] }) := by
  refine ⟨rfl, ?_⟩
  unfold vectorFS.Write
  rw [hparse]
  simp only [hdocs, Bool.not_true, Bool.false_eq_true, if_false]
  split <;> rfl

/-- Witness for C2: a concrete write of `"hello"` to `/ns/docs/a.txt` on the
empty state. -/
theorem vectorfs_write_acks_and_enqueues_witness :
    parsePath "/ns/docs/a.txt" = .ok ("ns", "docs/a.txt") ∧
    strHasPrefix "docs/a.txt" "docs/" = true ∧
    (indexQueueCapacity = 100 ∧
      vectorFS.Write stEmpty "/ns/docs/a.txt" (asciiBytes "hello") (-1) WriteFlagCreate =
        (.ok ((asciiBytes "hello").length : Int),
          if stEmpty.indexQueue.length < indexQueueCapacity then
            { stEmpty with indexQueue :=
                stEmpty.indexQueue ++
                  [⟨"ns", hexEncodeToString (sha256 (asciiBytes "hello")),
                    strTrimPrefix "docs/a.txt" "docs/", asciiBytes "hello"⟩] }
          else
            { stEmpty with overflowQueue :=
                stEmpty.overflowQueue ++
                  [⟨"ns", hexEncodeToString (sha256 (asciiBytes "hello")),
                    strTrimPrefix "docs/a.txt" "docs/", asciiBytes "hello"⟩] })) :=
  ⟨rfl, rfl,
    vectorfs_write_acks_and_enqueues stEmpty "/ns/docs/a.txt" (asciiBytes "hello") (-1)
      WriteFlagCreate "ns" "docs/a.txt" rfl rfl⟩

/-- C6 counterexample: in the VectorBackend, a write whose flags are exactly
`Exclusive` (so `Exclusive` without `Create`) does not return an error: on a
`docs/` path it succeeds with `len(data)`. -/
theorem vectorfs_write_exclusive_without_create_succeeds :
    WriteFlagExclusive.exclusive = true ∧
    WriteFlagExclusive.create = false ∧
    (vectorFS.Write stEmpty "/n/docs/a.txt" (asciiBytes "x") 0 WriteFlagExclusive).1 =
      .ok ((asciiBytes "x").length : Int) :=
  ⟨rfl, rfl, rfl⟩

/-- C6 amended: the VectorBackend's `Write` performs no write-flag
validation at all — for every flag set with `Exclusive` and without
`Create`, a write to a `docs/` path still succeeds and returns `len(data)`,
for every path, payload and offset. -/
theorem vectorfs_write_ignores_flags
    (st : VfsState) (path : String) (data : List Nat) (offset : Int) (flags : WriteFlag)
    (ns rel : String)
    (hparse : parsePath path = .ok (ns, rel))
    (hdocs : strHasPrefix rel "docs/" = true)
    (hexcl : flags.exclusive = true)
    (hcreate : flags.create = false) :
    (vectorFS.Write st path data offset flags).1 = .ok (data.length : Int) := by
  unfold vectorFS.Write
  rw [hparse]
  simp only [hdocs, Bool.not_true, Bool.false_eq_true, if_false]
  split <;> rfl

/-- Witness for C6 amended: flags exactly `Exclusive`, offset 7, payload
`"abc"`. -/
theorem vectorfs_write_ignores_flags_witness :
    parsePath "/m/docs/b.txt" = .ok ("m", "docs/b.txt") ∧
    strHasPrefix "docs/b.txt" "docs/" = true ∧
    WriteFlagExclusive.exclusive = true ∧
    WriteFlagExclusive.create = false ∧
    (vectorFS.Write stEmpty "/m/docs/b.txt" (asciiBytes "abc") 7 WriteFlagExclusive).1 =
      .ok ((asciiBytes "abc").length : Int) :=
  ⟨rfl, rfl, rfl, rfl,
    vectorfs_write_ignores_flags stEmpty "/m/docs/b.txt" (asciiBytes "abc") 7 WriteFlagExclusive
      "m" "docs/b.txt" rfl rfl rfl rfl⟩

/-- C7: for every existing namespace, reading `<namespace>/.indexing`
returns exactly the four bytes `"idle"`, whatever the offset and size
arguments and whatever indexing activity the state holds, and `stat`
reports a 4-byte non-directory file. -/
theorem vectorfs_indexing_file_idle
    (env : Env) (st : VfsState) (path : String) (offset size : Int) (ns : String)
    (hparse : parsePath path = .ok (ns, ".indexing"))
    (hns : namespaceExists st ns = true) :
    vectorFS.Read env st path offset size = .ok (asciiBytes "idle") ∧
    (asciiBytes "idle").length = 4 ∧
    vectorFS.Stat env st path =
      .ok ⟨".indexing", 4, 0o444, env.now, false, "vectorfs", "status"⟩ := by
  have hpr : path ≠ "/README" := by
    intro hp
    subst hp
    have h0 : parsePath "/README" = .ok ("README", "") := rfl
    rw [h0] at hparse
    simp at hparse
  have hroot : path ≠ "/" := by
    intro hp
    subst hp
    have h0 : parsePath "/" = .ok ("", "") := rfl
    rw [h0] at hparse
    simp at hparse
  refine ⟨?_, rfl, ?_⟩
  · unfold vectorFS.Read
    rw [if_neg hpr, hparse]
    simp
  · unfold vectorFS.Stat
    rw [if_neg hroot, if_neg hpr, hparse]
    simp

/-- Witness for C7: reading `/n/.indexing` with offset 3 and size 2 in a
state where namespace `n` exists. -/
theorem vectorfs_indexing_file_idle_witness :
    parsePath "/n/.indexing" = .ok ("n", ".indexing") ∧
    namespaceExists stNs "n" = true ∧
    (vectorFS.Read env0 stNs "/n/.indexing" 3 2 = .ok (asciiBytes "idle") ∧
      (asciiBytes "idle").length = 4 ∧
      vectorFS.Stat env0 stNs "/n/.indexing" =
        .ok ⟨".indexing", 4, 0o444, env0.now, false, "vectorfs", "status"⟩) :=
  ⟨rfl, rfl, vectorfs_indexing_file_idle env0 stNs "/n/.indexing" 3 2 "n" rfl rfl⟩

/-- C5 counterexample: `custom-search` on `/n/docsX` succeeds (with the
trivial oracles) although `docsX` is not inside the namespace's `docs/`
directory — the source guard checks the string prefix `"docs"` without the
slash. -/
theorem vectorfs_customgrep_accepts_docs_sibling :
    vectorFS.CustomGrep env0 "/n/docsX" "q" = .ok [] ∧
    parsePath "/n/docsX" = .ok ("n", "docsX") ∧
    ¬("docsX" = "docs" ∨ strHasPrefix "docsX" "docs/" = true) := by
  refine ⟨rfl, rfl, ?_⟩
  decide

/-- C5 amended: `custom-search(path, query)` succeeds only when the
namespace-relative path carries the string prefix `"docs"` (the guard omits
the slash, so sibling names such as `docsX` are accepted as well as `docs`
and `docs/...`); on success it issues a single query embedding and a top-10
nearest-neighbor search, and each hit is `{file = namespace/docs/<filename>,
line = chunk-index + 1, content = chunk text, metadata = {distance,
score = 1 - distance}}`. -/
theorem vectorfs_customgrep_guard_and_hits
    (env : Env) (path query ns rel : String)
    (hparse : parsePath path = .ok (ns, rel)) :
    (strHasPrefix rel "docs" = false → rel ≠ "docs" →
      vectorFS.CustomGrep env path query =
        .error "vector search only supported in docs/ directory") ∧
    (strHasPrefix rel "docs" = true →
      vectorFS.CustomGrep env path query = vectorFS.VectorSearch env ns query) ∧
    (∀ emb rows, env.generateEmbedding query = .ok emb →
      env.vectorSearchDB ns emb 10 = .ok rows →
      vectorFS.VectorSearch env ns query =
        .ok (rows.map (fun r =>
          ⟨ns ++ "/docs/" ++ r.fileName, r.chunkIndex + 1, r.chunkText,
           r.distance, 1 - r.distance⟩))) := by
  refine ⟨?_, ?_, ?_⟩
  · intro h1 h2
    unfold vectorFS.CustomGrep
    rw [hparse]
    simp [h1, h2]
  · intro h1
    unfold vectorFS.CustomGrep
    rw [hparse]
    simp [h1]
  · intro emb rows hemb hdb
    simp [vectorFS.VectorSearch, hemb, hdb]

/-- Witness for C5: searching at the `docs` directory of namespace `n` with
the trivial oracles delegates to the vector search and returns its hits. -/
theorem vectorfs_customgrep_guard_and_hits_witness :
    parsePath "/n/docs" = .ok ("n", "docs") ∧
    strHasPrefix "docs" "docs" = true ∧
    vectorFS.CustomGrep env0 "/n/docs" "q" = vectorFS.VectorSearch env0 "n" "q" ∧
    vectorFS.VectorSearch env0 "n" "q" = .ok [] :=
  ⟨rfl, rfl,
    (vectorfs_customgrep_guard_and_hits env0 "/n/docs" "q" "n" "docs" rfl).2.1 rfl,
    (vectorfs_customgrep_guard_and_hits env0 "/n/docs" "q" "n" "docs" rfl).2.2 [] [] rfl rfl⟩

/-- C1 amended: two writes with identical bytes carry the identical SHA-256
digest; when that digest is fresh, the first task's prepare phase uploads
exactly one object and inserts one document record, and the second task's
prepare phase reports the duplicate and performs no upload and no metadata
change at all — in particular the document record keeps the first write's
filename; it is not updated to the second write's filename. -/
theorem vectorfs_dedup_second_prepare_noop
    (env : Env) (st : VfsState) (ns f1 f2 dg : String) (data : List Nat)
    (hdg : dg = hexEncodeToString (sha256 data))
    (hfresh : fileExists st ns dg = false) :
    Indexer.PrepareDocument env st ns dg f1 data =
      (.ok false,
       insertFileMetadata (uploadDocument env st ns dg data) ns
         ⟨dg, f1, buildKey env ns dg, (data.length : Int), env.now, env.now⟩) ∧
    (∀ st1, st1 = (Indexer.PrepareDocument env st ns dg f1 data).2 →
      Indexer.PrepareDocument env st1 ns dg f2 data = (.ok true, st1) ∧
      st1.objects = putObject st.objects (buildKey env ns dg) data ∧
      getFileMetadataByDigest st1 ns dg =
        some ⟨dg, f1, buildKey env ns dg, (data.length : Int), env.now, env.now⟩) := by
  have h1 : Indexer.PrepareDocument env st ns dg f1 data =
      (.ok false,
       insertFileMetadata (uploadDocument env st ns dg data) ns
         ⟨dg, f1, buildKey env ns dg, (data.length : Int), env.now, env.now⟩) := by
    unfold Indexer.PrepareDocument
    simp [hfresh]
  have hany : st.files.any
      (fun r => decide (r.1 = ns) && decide (r.2.fileDigest = dg)) = false := hfresh
  have hexists : fileExists
      (insertFileMetadata (uploadDocument env st ns dg data) ns
        ⟨dg, f1, buildKey env ns dg, (data.length : Int), env.now, env.now⟩) ns dg = true := by
    unfold fileExists insertFileMetadata uploadDocument
    simp [hany]
  have h2 : Indexer.PrepareDocument env
      (insertFileMetadata (uploadDocument env st ns dg data) ns
        ⟨dg, f1, buildKey env ns dg, (data.length : Int), env.now, env.now⟩) ns dg f2 data =
      (.ok true,
       insertFileMetadata (uploadDocument env st ns dg data) ns
         ⟨dg, f1, buildKey env ns dg, (data.length : Int), env.now, env.now⟩) := by
    unfold Indexer.PrepareDocument
    simp [hexists]
  have hfind : st.files.find?
      (fun r => decide (r.1 = ns) && decide (r.2.fileDigest = dg)) = none := by
    rw [List.find?_eq_none]
    exact List.any_eq_false.mp hany
  have hmetaGet : getFileMetadataByDigest
      (insertFileMetadata (uploadDocument env st ns dg data) ns
        ⟨dg, f1, buildKey env ns dg, (data.length : Int), env.now, env.now⟩) ns dg =
      some ⟨dg, f1, buildKey env ns dg, (data.length : Int), env.now, env.now⟩ := by
    unfold getFileMetadataByDigest insertFileMetadata uploadDocument
    rw [find?_append_of_none hfind]
    simp
  refine ⟨h1, ?_⟩
  intro st1 hst1
  have hs : st1 = insertFileMetadata (uploadDocument env st ns dg data) ns
      ⟨dg, f1, buildKey env ns dg, (data.length : Int), env.now, env.now⟩ := by
    rw [hst1, h1]
  subst hs
  exact ⟨h2, rfl, hmetaGet⟩

/-- Witness for C1 amended: two prepares of the payload `"payload"` under
namespace `n`, first as `a.txt`, then as `b.txt`, starting from the empty
state. -/
theorem vectorfs_dedup_second_prepare_noop_witness :
    fileExists stEmpty "n" (hexEncodeToString (sha256 (asciiBytes "payload"))) = false ∧
    Indexer.PrepareDocument env0
        (Indexer.PrepareDocument env0 stEmpty "n"
          (hexEncodeToString (sha256 (asciiBytes "payload"))) "a.txt" (asciiBytes "payload")).2
        "n" (hexEncodeToString (sha256 (asciiBytes "payload"))) "b.txt" (asciiBytes "payload") =
      (.ok true,
       (Indexer.PrepareDocument env0 stEmpty "n"
          (hexEncodeToString (sha256 (asciiBytes "payload"))) "a.txt"
          (asciiBytes "payload")).2) :=
  ⟨rfl,
    ((vectorfs_dedup_second_prepare_noop env0 stEmpty "n" "a.txt" "b.txt"
        (hexEncodeToString (sha256 (asciiBytes "payload"))) (asciiBytes "payload")
        rfl rfl).2 _ rfl).1⟩

set_option maxRecDepth 100000 in
/-- C1 counterexample: after writing the same payload twice (first as
`a.txt`, then as `b.txt`), the document record still carries the first
filename `a.txt`; it is not updated to the second write's filename. -/
theorem vectorfs_dedup_filename_not_updated :
    (getFileMetadataByDigest
        (Indexer.PrepareDocument env0
          (Indexer.PrepareDocument env0 stEmpty "n"
            (hexEncodeToString (sha256 (asciiBytes "payload"))) "a.txt"
            (asciiBytes "payload")).2
          "n" (hexEncodeToString (sha256 (asciiBytes "payload"))) "b.txt"
          (asciiBytes "payload")).2
        "n" (hexEncodeToString (sha256 (asciiBytes "payload")))).map FileMetadata.fileName =
      some "a.txt" ∧
    some "a.txt" ≠ some ("b.txt" : String) := by
  constructor
  · decide
  · decide

/-- C8: LocalBackend write to a missing file without a creating flag fails,
except for the compatibility clause: flags exactly `None` with offset `-1`
auto-creates the file with the written data. -/
theorem localfs_write_missing_file_rule
    (st : LocalState) (path : String) (data : List Nat) (offset : Int) (flags : WriteFlag)
    (habsent : lookupFile st.files path = none)
    (hnocreate : flags.create = false) :
    (flags = WriteFlagNone ∧ offset = -1 →
      LocalFS.Write st path data offset flags =
        (.ok (data.length : Int), ⟨setFile st.files path data⟩)) ∧
    (¬(flags = WriteFlagNone ∧ offset = -1) →
      ∃ e, LocalFS.Write st path data offset flags = (.error e, st)) := by
  constructor
  · intro h
    obtain ⟨hf, ho⟩ := h
    subst hf
    subst ho
    unfold LocalFS.Write
    rw [habsent]
    simp [WriteFlagNone]
  · intro h
    have heq : LocalFS.Write st path data offset flags =
        (.error "file does not exist and no flag requests creation", st) := by
      unfold LocalFS.Write
      rw [habsent]
      simp [hnocreate, h]
    exact ⟨_, heq⟩

/-- Witness for C8: on the empty backend, writing `"Hello"` to a missing
path with flags `None` at offset `-1` auto-creates, while the same write at
offset `0` is an error (as `TestLocalFSWriteNonExistent` checks). -/
theorem localfs_write_missing_file_rule_witness :
    lookupFile localEmpty.files "/nonexistent.txt" = none ∧
    WriteFlagNone.create = false ∧
    LocalFS.Write localEmpty "/nonexistent.txt" (asciiBytes "Hello") (-1) WriteFlagNone =
      (.ok ((asciiBytes "Hello").length : Int),
       ⟨setFile localEmpty.files "/nonexistent.txt" (asciiBytes "Hello")⟩) ∧
    (∃ e, LocalFS.Write localEmpty "/nonexistent.txt" (asciiBytes "Hello") 0 WriteFlagNone =
      (.error e, localEmpty)) :=
  ⟨rfl, rfl,
    (localfs_write_missing_file_rule localEmpty "/nonexistent.txt" (asciiBytes "Hello") (-1)
        WriteFlagNone rfl rfl).1 ⟨rfl, rfl⟩,
    (localfs_write_missing_file_rule localEmpty "/nonexistent.txt" (asciiBytes "Hello") 0
        WriteFlagNone rfl rfl).2 (by decide)⟩

/-- C9: LocalBackend hole-fill — writing `data` with flags `None` at an
offset strictly past the current length succeeds, keeps the original bytes,
zero-fills the gap, appends `data`, and the resulting length is
`off + len(data)`. -/
theorem localfs_offset_hole_fill
    (st : LocalState) (path : String) (old data : List Nat) (off : Nat)
    (hfile : lookupFile st.files path = some old)
    (hbeyond : old.length < off) :
    LocalFS.Write st path data (off : Int) WriteFlagNone =
      (.ok (data.length : Int),
       ⟨setFile st.files path (old ++ List.replicate (off - old.length) 0 ++ data)⟩) ∧
    (old ++ List.replicate (off - old.length) 0 ++ data).length = off + data.length := by
  constructor
  · unfold LocalFS.Write
    rw [hfile]
    have hnn : ¬((off : Int) < 0) := by omega
    have htake : old.take off = old := List.take_of_length_le (le_of_lt hbeyond)
    have hdrop : old.drop (off + data.length) = [] :=
      List.drop_eq_nil_of_le (le_trans (le_of_lt hbeyond) (Nat.le_add_right _ _))
    simp [WriteFlagNone, hnn, writeAt, htake, hdrop]
  · simp
    omega

/-- Witness for C9, scenario S1: after writing `"Hello"` to `/a` with
`Create`, writing `"World"` at offset 10 with `None` yields the 15-byte file
`"Hello"`, five zero bytes, `"World"`. -/
theorem localfs_offset_hole_fill_witness :
    lookupFile stHello.files "/a" = some (asciiBytes "Hello") ∧
    (asciiBytes "Hello").length < 10 ∧
    (LocalFS.Write stHello "/a" (asciiBytes "World") ((10 : Nat) : Int) WriteFlagNone =
      (.ok ((asciiBytes "World").length : Int),
       ⟨setFile stHello.files "/a"
         (asciiBytes "Hello" ++ List.replicate (10 - (asciiBytes "Hello").length) 0 ++
          asciiBytes "World")⟩) ∧
     (asciiBytes "Hello" ++ List.replicate (10 - (asciiBytes "Hello").length) 0 ++
      asciiBytes "World").length = 10 + (asciiBytes "World").length) :=
  ⟨rfl, by decide,
    localfs_offset_hole_fill stHello "/a" (asciiBytes "Hello") (asciiBytes "World") 10
      rfl (by decide)⟩
